import Mathlib

/-!
Verification development for the worker core of spotify-my-slack
(backend/worker.py and backend/utils/slack.py).

The embedding is shallow: each relevant Python function is translated to an
executable Lean definition.  Strings are lists of characters (Python string
slicing, strip and join are modelled on code points).  Time is modelled as
integer seconds; the several datetime.now() calls inside one update cycle are
abstracted to a single instant carried in the state.  Network collaborators
(the Spotify token endpoint and the Slack profile endpoints) are modelled as
oracles supplied in an environment record; the Spotify player endpoint is
modelled as a trace of outcomes consumed one fetch at a time, which also makes
the retry recursion of update_user structurally terminating on the trace.
Side effects are recorded in an explicit effect list.
-/

/-- A test on code points matching the whitespace characters stripped by
Python str.strip on the ASCII range (the characters relevant here). -/
def pyIsSpace (c : Char) : Bool :=
  c = ' ' || c = '\t' || c = '\n' || c = '\r' || c = '\x0b' || c = '\x0c'

/-- Python str.strip: remove leading and trailing whitespace. -/
def pyStrip (s : List Char) : List Char :=
  ((s.dropWhile pyIsSpace).reverse.dropWhile pyIsSpace).reverse

/-- An artist of a track, as used by worker.py (a.name). -/
structure Artist where
  name : List Char
deriving DecidableEq

/-- A track, as used by worker.py (track.name, track.artists). -/
structure TrackItem where
  name : List Char
  artists : List Artist
deriving DecidableEq

/-- The player payload, as used by worker.py (player.is_playing, player.item). -/
structure PlayerData where
  is_playing : Bool
  item : Option TrackItem
deriving DecidableEq

/-- The user record fields read and written by worker.py. -/
structure User where
  id : Int
  spotifyAccessToken : List Char
  spotifyRefreshToken : List Char
  spotifyExpiresAt : Int
  slackAccessToken : List Char
  statusSetLastTime : Bool
  updatedAt : Int
deriving DecidableEq

/-- Arguments of a Slack profile write (slack.py, UserProfileArgs). -/
structure UserProfileArgs where
  status_text : List Char
  status_emoji : List Char
  status_expiration : Int := 0
deriving DecidableEq

/-- The declared return model of get_status and set_status
(slack.py, UserProfileData): only the two fields ok and error. -/
structure UserProfileData where
  ok : Bool
  error : Option (List Char)
deriving DecidableEq

/-- A Python runtime value, for modelling attribute lookup. -/
inductive PyVal where
  | pyBool (b : Bool)
  | pyStr (s : List Char)
  | pyNone
deriving DecidableEq

/-- Python attribute lookup on a UserProfileData value: the pydantic model of
slack.py declares exactly the fields ok and error, so any other attribute
name faults (AttributeError), modelled as none. -/
def UserProfileData.pyGetAttr (d : UserProfileData) (attr : List Char) :
    Option PyVal :=
  if attr = "ok".toList then some (PyVal.pyBool d.ok)
  else if attr = "error".toList then
    some (match d.error with
          | some s => PyVal.pyStr s
          | none => PyVal.pyNone)
  else none

/-- The attribute read performed by the diffing step at worker.py:148
(current_profile.profile. ...) on a value of the declared return type of
get_status. -/
def statusDiffAccess (d : UserProfileData) : Option PyVal :=
  d.pyGetAttr "profile".toList

/-- Token payload of the Spotify refresh exchange, as consumed by
update_spotify_tokens (access_token, refresh_token possibly absent,
expires_in).  The defining module backend/utils/spotify.py is not among the
sources; the field shapes are those dereferenced in worker.py. -/
structure TokenExchangeData where
  access_token : List Char
  refresh_token : Option (List Char)
  expires_in : Int
deriving DecidableEq

/-- Modelled from the spec: calc_spotify_expiry lives in
backend/utils/spotify.py, which is not among the sources; the spec states the
new expiry is computed as now + providerExpiresIn. -/
def calc_spotify_expiry (now expiresIn : Int) : Int :=
  now + expiresIn

/-- Outcome of one call to the Spotify player endpoint, as distinguished by
worker.py: a payload (possibly none), a rate-limit error carrying a
retry-after hint, or any other API error. -/
inductive PlayerOutcome where
  | ok (player : Option PlayerData)
  | throttled (retryAfter : Int)
  | apiError
deriving DecidableEq

/-- Outcome of the Spotify token-refresh call, as distinguished by
update_spotify_tokens: success with a token payload, or failure carrying the
optional error_description of the error body. -/
inductive RefreshOutcome where
  | success (d : TokenExchangeData)
  | failure (errorDescription : Option (List Char))
deriving DecidableEq

/-- Behaviour of the Slack profile endpoints during one set_user_status
call: the get_status call raises a transport error, or it returns a value of
its declared UserProfileData shape; respond carries the ok flag and error
field with which set_status would answer — never consulted in this program,
because the step faults at the diff read before reaching set_status (claims
C9 and C10). -/
inductive SlackBehavior where
  | getRaises
  | respond (ok : Bool) (error : Option (List Char))
deriving DecidableEq

/-- Environment of one update cycle: the oracles for the external
collaborators.  selectEmoji models get_custom_emoji of
backend/utils/emojis.py, which is not among the sources; the spec treats it
as a pure function from user and track to a string. -/
structure Env where
  refreshOutcome : RefreshOutcome
  slackBehavior : SlackBehavior
  selectEmoji : User → TrackItem → List Char

/-- Observable state of one update cycle: the user record, whether the record
was deleted, the status text currently reported by the messaging platform
(the value the diffing step at worker.py:148 means to read), the shared
global UPDATE_THRESHOLD, and the current instant. -/
structure WorldState where
  user : User
  userDeleted : Bool
  platformStatus : List Char
  threshold : Int
  now : Int
deriving DecidableEq

/-- Recorded side effects of one update cycle.  uncaughtAttrError marks the
AttributeError raised at worker.py:148 escaping every handler (the except
clause there catches only SlackApiError); it is always the last effect of a
trace that contains it, since execution aborts there. -/
inductive Effect where
  | deleteUser
  | refreshCall
  | fetchPlayer
  | getStatusCall
  | setStatusCall (text : List Char) (emoji : List Char)
  | updateRecord
  | gateWait
  | uncaughtAttrError
deriving DecidableEq

/-- worker.py:49-51: the token-expiry test
spotifyExpiresAt <= now - timedelta(minutes=5). -/
def spotify_token_expired (expiresAt now : Int) : Bool :=
  expiresAt ≤ now - 5 * 60

/-- worker.py:44-46: the gate wait at the top of update_user, recorded as an
effect when the shared threshold lies in the future. -/
def gateEffOf (st : WorldState) : List Effect :=
  if st.now < st.threshold then [Effect.gateWait] else []

/-- worker.py:120-123: membership of the error_description in the set of
fatal descriptions. -/
def fatal_refresh_desc (desc : Option (List Char)) : Bool :=
  desc = some "Refresh token revoked".toList ||
    desc = some "User does not exist".toList

/-- worker.py:104-137, _update_spotify_tokens: refresh the Spotify tokens.
On failure, delete the user exactly when the error_description is fatal and
report failure; on success, write the new access token, the expiry computed
by calc_spotify_expiry, the refresh token with Python x or "" fallback, and
the updated timestamp. -/
def update_spotify_tokens (env : Env) (st : WorldState) :
    Bool × WorldState × List Effect :=
  match env.refreshOutcome with
  | RefreshOutcome.failure desc =>
      if fatal_refresh_desc desc = true then
        (false, { st with userDeleted := true },
         [Effect.refreshCall, Effect.deleteUser])
      else
        (false, st, [Effect.refreshCall])
  | RefreshOutcome.success d =>
      (true,
       { st with user := { st.user with
           spotifyExpiresAt := calc_spotify_expiry st.now d.expires_in,
           spotifyAccessToken := d.access_token,
           spotifyRefreshToken := d.refresh_token.getD [],
           updatedAt := st.now } },
       [Effect.refreshCall, Effect.updateRecord])

/-- worker.py:184-188: the optional by-artists clause. -/
def byArtists (t : TrackItem) : List Char :=
  if t.artists.length = 0 then []
  else " by ".toList ++ List.intercalate ", ".toList (t.artists.map Artist.name)

/-- The full desired text before the length check (worker.py:188). -/
def statusTextFull (t : TrackItem) : List Char :=
  t.name ++ byArtists t

/-- worker.py:180-191, _calc_status_text: the desired status text, truncated
to the stripped first 99 code points plus an ellipsis when the full text
exceeds 100 code points. -/
def calc_status_text (t : TrackItem) : List Char :=
  if 100 < (statusTextFull t).length then
    pyStrip ((statusTextFull t).take 99) ++ ['…']
  else
    statusTextFull t

/-- worker.py:139-177, _set_user_status: a transport error at the get_status
call raises SlackApiError, which the except clause handles by setting the
shared threshold to now + 6 and returning False; in every other execution
get_status returns a value of its declared type UserProfileData, and the
diff step at line 148 reads the attribute profile on it, which faults on
every such value (statusDiffAccess is none for all of them, claim C10).
That AttributeError is not a SlackApiError, so no handler catches it: the
step aborts before any comparison, write, deletion or record update, with
the state unchanged.  The args and the status_set_last_time flag are never
consumed, the comparison at line 148 and everything after it being
unreachable. -/
def set_user_status (env : Env) (st : WorldState) (_args : UserProfileArgs)
    (_status_set_last_time : Bool) : Bool × WorldState × List Effect :=
  match env.slackBehavior with
  | SlackBehavior.getRaises =>
      (false, { st with threshold := st.now + 6 }, [Effect.getStatusCall])
  | SlackBehavior.respond _ _ =>
      (false, st, [Effect.getStatusCall, Effect.uncaughtAttrError])

/-- The profile arguments built at worker.py:94-97 for a playing track. -/
def desired_args (env : Env) (st : WorldState) (track : TrackItem) :
    UserProfileArgs :=
  { status_text := calc_status_text track,
    status_emoji := env.selectEmoji st.user track }

/-- worker.py:99-101: the clearing branch — invoke the status-write step
with the empty status when a status was set last time, otherwise do
nothing. -/
def clear_status_branch (env : Env) (st : WorldState) :
    WorldState × List Effect :=
  if st.user.statusSetLastTime = true then
    let r := set_user_status env st { status_text := [], status_emoji := [] }
      false
    (r.2.1, r.2.2)
  else
    (st, [])

/-- worker.py:93-101: the reconcile-and-write portion of update_user, keyed
on whether the player payload is present, has an item and is playing. -/
def reconcile (env : Env) (player : Option PlayerData) (st : WorldState) :
    WorldState × List Effect :=
  match player with
  | some p =>
      match p.item with
      | some track =>
          if p.is_playing = true then
            let r := set_user_status env st (desired_args env st track) true
            (r.2.1, r.2.2)
          else
            clear_status_branch env st
      | none => clear_status_branch env st
  | none => clear_status_branch env st

/-- Condition of worker.py:93 on the player payload. -/
def playing_snapshot (player : Option PlayerData) : Bool :=
  match player with
  | some p => p.is_playing && p.item.isSome
  | none => false

/-- worker.py:39-102, _update_user: one user-update cycle.  The cycle waits
on the gate, deletes the user when the token is expired with no refresh
token, refreshes when expired (aborting on refresh failure), then fetches
the player: a throttled outcome overwrites the shared threshold with
now + retryAfter + 2 and retries the whole cycle on the rest of the outcome
trace with an incremented attempt counter; any other API error abandons the
cycle; a payload is reconciled into the status. -/
inductive PhaseResult where
  | halt (st : WorldState) (effs : List Effect)
  | go (st : WorldState) (effs : List Effect)
deriving DecidableEq

/-- worker.py:48-66: the part of the cycle before the player fetch — delete
the user when the token is expired with an empty refresh token, refresh when
expired (halting the cycle on refresh failure), otherwise proceed. -/
def pre_fetch_phase (env : Env) (st : WorldState) : PhaseResult :=
  if spotify_token_expired st.user.spotifyExpiresAt st.now = true ∧
      st.user.spotifyRefreshToken = [] then
    PhaseResult.halt { st with userDeleted := true } [Effect.deleteUser]
  else if spotify_token_expired st.user.spotifyExpiresAt st.now = true then
    match update_spotify_tokens env st with
    | (true, st1, effs) => PhaseResult.go st1 effs
    | (false, st1, effs) => PhaseResult.halt st1 effs
  else
    PhaseResult.go st []

def update_user_core (env : Env) :
    List PlayerOutcome → WorldState → Nat → WorldState × List Effect
  | [], st, _ =>
      match pre_fetch_phase env st with
      | PhaseResult.halt st1 effs => (st1, effs)
      | PhaseResult.go st1 effs => (st1, effs)
  | o :: rest, st, attempt =>
      match pre_fetch_phase env st with
      | PhaseResult.halt st1 effs => (st1, effs)
      | PhaseResult.go st1 effs =>
          match o with
          | PlayerOutcome.throttled ra =>
              let st2 := { st1 with threshold := st1.now + (ra + 2) }
              let rr := update_user_core env rest st2 (attempt + 1)
              (rr.1, effs ++ [Effect.fetchPlayer] ++ (gateEffOf st2 ++ rr.2))
          | PlayerOutcome.apiError =>
              (st1, effs ++ [Effect.fetchPlayer])
          | PlayerOutcome.ok player =>
              let rc := reconcile env player st1
              (rc.1, effs ++ [Effect.fetchPlayer] ++ rc.2)

/-- The full update_user call: the gate wait of worker.py:44-46 happens
before the body, and on each recursive retry inside the body (each retry
re-enters through the same wait, recorded there by update_user_core). -/
def update_user (env : Env) (outcomes : List PlayerOutcome) (st : WorldState)
    (attempt : Nat) : WorldState × List Effect :=
  ((update_user_core env outcomes st attempt).1,
   gateEffOf st ++ (update_user_core env outcomes st attempt).2)

/-- Recognizer of a write effect (a set_status call). -/
def is_write : Effect → Bool
  | Effect.setStatusCall _ _ => true
  | _ => false

/-- Recognizer of a player-fetch effect. -/
def is_fetch : Effect → Bool
  | Effect.fetchPlayer => true
  | _ => false

/-- Number of writes issued in an effect trace. -/
def count_writes (effs : List Effect) : Nat :=
  (effs.filter is_write).length

/-- Number of player fetches issued in an effect trace. -/
def count_fetches (effs : List Effect) : Nat :=
  (effs.filter is_fetch).length

/-- The spec-side expiry test of claim C4: the token is treated as expired
once its expiry timestamp is within five minutes of the current time. -/
def spec_token_expired (expiresAt now : Int) : Bool :=
  expiresAt ≤ now + 5 * 60

/-- A baseline user whose token is not expired at instant 0. -/
def user0 : User :=
  { id := 1,
    spotifyAccessToken := "at".toList,
    spotifyRefreshToken := "rt".toList,
    spotifyExpiresAt := 0,
    slackAccessToken := "sl".toList,
    statusSetLastTime := false,
    updatedAt := 0 }

/-- A baseline environment: refresh fails non-fatally, Slack responds ok. -/
def env0 : Env :=
  { refreshOutcome := RefreshOutcome.failure none,
    slackBehavior := SlackBehavior.respond true none,
    selectEmoji := fun _ _ => [] }

/-- A baseline state at instant 0 with an idle gate. -/
def st0 : WorldState :=
  { user := user0,
    userDeleted := false,
    platformStatus := [],
    threshold := 0,
    now := 0 }

/-- The track of the Midnight scenario of the spec. -/
def midnightTrack : TrackItem :=
  { name := "Midnight".toList,
    artists := [{ name := "A".toList }, { name := "B".toList }] }

/-- A track whose name has 101 code points and no artists: its full desired
text exceeds the 100-point limit. -/
def longTrack : TrackItem :=
  { name := List.replicate 101 'a', artists := [] }

/-- A track whose full desired text has 101 code points with a space in
position 99 (0-based 98), so the truncated prefix ends in whitespace. -/
def stripTrack : TrackItem :=
  { name := List.replicate 98 'a' ++ [' ', 'b', 'b'], artists := [] }

/-- A state at instant 1000 whose token expires exactly at instant 1000. -/
def stC4 : WorldState :=
  { st0 with user := { user0 with spotifyExpiresAt := 1000 }, now := 1000 }

/-- A refresh payload carrying no new refresh token. -/
def c5Exchange : TokenExchangeData :=
  { access_token := "newAT".toList, refresh_token := none,
    expires_in := 3600 }

/-- An environment whose token refresh succeeds with c5Exchange. -/
def envC5 : Env :=
  { env0 with refreshOutcome := RefreshOutcome.success c5Exchange }

/-- A state whose user holds a prior, non-empty refresh token. -/
def stC5 : WorldState :=
  { st0 with user := { user0 with spotifyRefreshToken := "oldRT".toList } }

/-- A state whose shared threshold is far in the future (instant 1000) while
the current instant is 0. -/
def stC1 : WorldState :=
  { st0 with threshold := 1000 }

/-- Profile arguments with the one-character text x. -/
def c9Args : UserProfileArgs :=
  { status_text := "x".toList, status_emoji := [] }

/-- A state whose platform already reports the text x. -/
def stC9 : WorldState :=
  { st0 with platformStatus := "x".toList }

/-- A state whose platform already reports the Midnight text — the exact
situation in which the spec expects the status diff to skip the write. -/
def stMidnight : WorldState :=
  { st0 with platformStatus := "Midnight by A, B".toList }

/-- A state for the deletion scenario: token expired long ago, empty refresh
token. -/
def stC6 : WorldState :=
  { st0 with
      user := ({ user0 with
                 spotifyExpiresAt := -1000,
                 spotifyRefreshToken := [] }),
      now := 0 }

/-- An environment whose Slack write succeeds, with a concrete emoji
selector. -/
def envC7 : Env :=
  { env0 with slackBehavior := SlackBehavior.respond true none }

/-- A playing snapshot on the Midnight track. -/
def playerC7 : Option PlayerData :=
  some ({ is_playing := true, item := some midnightTrack })

/-! ## Helper lemmas -/

/-- Stripping whitespace never lengthens a string. -/
theorem pyStrip_length_le (s : List Char) : (pyStrip s).length ≤ s.length := by
  have h1 : ((s.dropWhile pyIsSpace).reverse.dropWhile pyIsSpace).length ≤
      (s.dropWhile pyIsSpace).reverse.length :=
    (List.dropWhile_sublist pyIsSpace).length_le
  have h2 : (s.dropWhile pyIsSpace).length ≤ s.length :=
    (List.dropWhile_sublist pyIsSpace).length_le
  unfold pyStrip
  simp only [List.length_reverse] at h1 ⊢
  omega

/-! ## Claim C3 -/

/-- Claim C3, as stated, is false: when the 99-point prefix of an overlong
text ends in whitespace, the stripped content is shorter than 99 points, so
the result does not consist of 99 characters of content plus an ellipsis
(its total length here is 99, not 100). -/
theorem c3_counterexample :
    100 < (statusTextFull stripTrack).length ∧
      (calc_status_text stripTrack).length = 99 ∧
      (calc_status_text stripTrack).length ≠ 100 := by decide

/-- Claim C3, amended: for every input whose full text exceeds 100 code
points, the result is the first 99 code points with surrounding whitespace
stripped, followed by one ellipsis character, and is at most 100 code points
in total. -/
theorem c3_truncation_amended (t : TrackItem)
    (h : 100 < (statusTextFull t).length) :
    calc_status_text t = pyStrip ((statusTextFull t).take 99) ++ ['…'] ∧
      (calc_status_text t).length ≤ 100 := by
  have heq : calc_status_text t
      = pyStrip ((statusTextFull t).take 99) ++ ['…'] := by
    unfold calc_status_text
    rw [if_pos h]
  refine ⟨heq, ?_⟩
  rw [heq]
  have h1 := pyStrip_length_le ((statusTextFull t).take 99)
  have h2 : ((statusTextFull t).take 99).length ≤ 99 := by
    rw [List.length_take]
    omega
  simp only [List.length_append, List.length_cons, List.length_nil]
  omega

/-- Witness for the amended claim C3 at a concrete overlong track. -/
theorem c3_truncation_amended_witness :
    100 < (statusTextFull longTrack).length ∧
      (calc_status_text longTrack
          = pyStrip ((statusTextFull longTrack).take 99) ++ ['…'] ∧
        (calc_status_text longTrack).length ≤ 100) :=
  ⟨by decide, c3_truncation_amended longTrack (by decide)⟩

/-! ## Claim C4 -/

/-- Claim C4: the code enters the refresh step only when the expiry lies at
least five minutes in the past (expiresAt less-or-equal now - 300), not when
the expiry is within five minutes of the current time as the spec's
five-minute-early safety margin requires.  At the failing input (the token
expiring exactly at the current instant 1000, hence within the margin) the
cycle performs no refresh call and no deletion. -/
theorem c4_expiry_margin_bug :
    spotify_token_expired 1000 1000 = false ∧
      spec_token_expired 1000 1000 = true ∧
      Effect.refreshCall ∉ (update_user env0 [PlayerOutcome.ok none] stC4 1).2 ∧
      (update_user env0 [PlayerOutcome.ok none] stC4 1).1.userDeleted
        = false := by
  decide

/-! ## Claim C5 -/

/-- Claim C5, as stated, is false: when the provider issues no new refresh
token, update_spotify_tokens stores the empty string, not the prior refresh
token. -/
theorem c5_counterexample :
    stC5.user.spotifyRefreshToken = "oldRT".toList ∧
      (update_spotify_tokens envC5 stC5).2.1.user.spotifyRefreshToken = [] ∧
      (update_spotify_tokens envC5 stC5).2.1.user.spotifyRefreshToken
        ≠ "oldRT".toList := by decide

/-- Claim C5, amended: on a successful refresh the record receives the new
access token, an expiry computed as now plus providerExpiresIn, the new
refresh token with the empty string (not the prior token) as fallback when
the provider issues none, and a refreshed updated timestamp. -/
theorem c5_refresh_success_amended (env : Env) (st : WorldState)
    (d : TokenExchangeData)
    (h : env.refreshOutcome = RefreshOutcome.success d) :
    (update_spotify_tokens env st).1 = true ∧
      (update_spotify_tokens env st).2.1.user.spotifyAccessToken
        = d.access_token ∧
      (update_spotify_tokens env st).2.1.user.spotifyExpiresAt
        = st.now + d.expires_in ∧
      (update_spotify_tokens env st).2.1.user.spotifyRefreshToken
        = d.refresh_token.getD [] ∧
      (update_spotify_tokens env st).2.1.user.updatedAt = st.now := by
  unfold update_spotify_tokens
  rw [h]
  simp [calc_spotify_expiry]

/-- Witness for the amended claim C5 at a concrete refresh payload. -/
theorem c5_refresh_success_amended_witness :
    envC5.refreshOutcome = RefreshOutcome.success c5Exchange ∧
      ((update_spotify_tokens envC5 stC5).1 = true ∧
        (update_spotify_tokens envC5 stC5).2.1.user.spotifyAccessToken
          = c5Exchange.access_token ∧
        (update_spotify_tokens envC5 stC5).2.1.user.spotifyExpiresAt
          = stC5.now + c5Exchange.expires_in ∧
        (update_spotify_tokens envC5 stC5).2.1.user.spotifyRefreshToken
          = c5Exchange.refresh_token.getD [] ∧
        (update_spotify_tokens envC5 stC5).2.1.user.updatedAt = stC5.now) :=
  ⟨rfl, c5_refresh_success_amended envC5 stC5 c5Exchange rfl⟩

/-! ## Claim C8 -/

/-- Claim C8, as stated, is false: for a playing track whose full text
exceeds 100 code points the desired text is truncated, so it does not equal
the track name even with an empty artist list. -/
theorem c8_counterexample :
    longTrack.artists = [] ∧ calc_status_text longTrack ≠ longTrack.name := by
  decide

/-- Claim C8, amended: for tracks whose full text is at most 100 code
points, the desired text is the track name followed by the by-clause when at
least one artist exists, and the track name exactly when the artist list is
empty. -/
theorem c8_desired_text_amended (t : TrackItem)
    (h : (statusTextFull t).length ≤ 100) :
    calc_status_text t = t.name ++ byArtists t ∧
      (t.artists = [] → calc_status_text t = t.name) ∧
      (t.artists ≠ [] → calc_status_text t
        = t.name ++ (" by ".toList
            ++ List.intercalate ", ".toList (t.artists.map Artist.name))) := by
  have heq : calc_status_text t = statusTextFull t := by
    unfold calc_status_text
    rw [if_neg (by omega)]
  refine ⟨heq, ?_, ?_⟩
  · intro ha
    rw [heq]
    unfold statusTextFull byArtists
    rw [ha]
    simp
  · intro ha
    rw [heq]
    unfold statusTextFull byArtists
    rw [if_neg (by simpa [List.length_eq_zero] using ha)]

/-- Witness for the amended claim C8: the Midnight scenario yields the text
Midnight by A, B. -/
theorem c8_desired_text_amended_witness :
    (statusTextFull midnightTrack).length ≤ 100 ∧
      calc_status_text midnightTrack = "Midnight by A, B".toList := by
  refine ⟨by decide, ?_⟩
  have h := (c8_desired_text_amended midnightTrack (by decide)).1
  rw [h]
  decide

/-! ## Claim C10 -/

/-- Claim C10: the diffing step at worker.py:148 reads the attribute named
profile, but get_status is declared to return UserProfileData, whose pydantic
model has exactly the fields ok and error; the access therefore faults on
every value of the declared return type (AttributeError at runtime), shown
here for all values and evaluated at a concrete one. -/
theorem c10_profile_attr_fault :
    (∀ d : UserProfileData, statusDiffAccess d = none) ∧
      statusDiffAccess { ok := true, error := none } = none := by
  constructor
  · intro d
    unfold statusDiffAccess UserProfileData.pyGetAttr
    rw [if_neg (by decide), if_neg (by decide)]
  · decide

/-- The gate-wait effect list holds no player fetch. -/
theorem count_fetches_gateEff (st : WorldState) :
    count_fetches (gateEffOf st) = 0 := by
  unfold gateEffOf
  split <;> simp [count_fetches, is_fetch]

/-- Fetch counting distributes over concatenation. -/
theorem count_fetches_append (l1 l2 : List Effect) :
    count_fetches (l1 ++ l2) = count_fetches l1 + count_fetches l2 := by
  simp [count_fetches, List.filter_append]

/-- With a live token the pre-fetch phase is a no-op. -/
theorem pre_fetch_phase_live (env : Env) (st : WorldState)
    (hexp : spotify_token_expired st.user.spotifyExpiresAt st.now = false) :
    pre_fetch_phase env st = PhaseResult.go st [] := by
  unfold pre_fetch_phase
  simp [hexp]

/-- Core cycle on an exhausted trace with a live token: no effects. -/
theorem update_user_core_nil (env : Env) (st : WorldState) (a : Nat)
    (hexp : spotify_token_expired st.user.spotifyExpiresAt st.now = false) :
    update_user_core env [] st a = (st, []) := by
  rw [update_user_core, pre_fetch_phase_live env st hexp]

/-- Core cycle on a throttled outcome with a live token: the threshold is
overwritten with now + retryAfter + 2 and the cycle recurses on the rest of
the trace, recording the fetch and the re-entered gate check. -/
theorem update_user_core_throttled (env : Env) (ra : Int)
    (rest : List PlayerOutcome) (st : WorldState) (a : Nat)
    (hexp : spotify_token_expired st.user.spotifyExpiresAt st.now = false) :
    update_user_core env (PlayerOutcome.throttled ra :: rest) st a
      = ((update_user_core env rest
            { st with threshold := st.now + (ra + 2) } (a + 1)).1,
         [Effect.fetchPlayer]
           ++ (gateEffOf { st with threshold := st.now + (ra + 2) }
              ++ (update_user_core env rest
                    { st with threshold := st.now + (ra + 2) } (a + 1)).2)) := by
  rw [update_user_core, pre_fetch_phase_live env st hexp]
  rfl

/-- Core cycle on a returned payload with a live token: the payload is
reconciled. -/
theorem update_user_core_ok (env : Env) (player : Option PlayerData)
    (rest : List PlayerOutcome) (st : WorldState) (a : Nat)
    (hexp : spotify_token_expired st.user.spotifyExpiresAt st.now = false) :
    update_user_core env (PlayerOutcome.ok player :: rest) st a
      = ((reconcile env player st).1,
         [Effect.fetchPlayer] ++ (reconcile env player st).2) := by
  rw [update_user_core, pre_fetch_phase_live env st hexp]
  rfl

/-- A full update_user call on a throttled outcome with a live token, phrased
through update_user itself: the whole cycle is retried on the rest of the
trace with the overwritten threshold and an incremented attempt counter. -/
theorem update_user_throttled (env : Env) (ra : Int)
    (rest : List PlayerOutcome) (st : WorldState) (a : Nat)
    (hexp : spotify_token_expired st.user.spotifyExpiresAt st.now = false) :
    update_user env (PlayerOutcome.throttled ra :: rest) st a
      = ((update_user env rest
            { st with threshold := st.now + (ra + 2) } (a + 1)).1,
         gateEffOf st ++ [Effect.fetchPlayer]
           ++ (update_user env rest
                { st with threshold := st.now + (ra + 2) } (a + 1)).2) := by
  unfold update_user
  rw [update_user_core_throttled env ra rest st a hexp]
  simp [List.append_assoc]

/-- Count of fetches after an all-throttled trace of length n: the cycle
performs exactly one fetch per throttled outcome, with no built-in cap. -/
theorem update_user_replicate_throttled (env : Env) :
    ∀ (n : Nat) (st : WorldState) (a : Nat),
      spotify_token_expired st.user.spotifyExpiresAt st.now = false →
      count_fetches
        (update_user env (List.replicate n (PlayerOutcome.throttled 1))
          st a).2 = n := by
  intro n
  induction n with
  | zero =>
      intro st a hexp
      unfold update_user
      rw [List.replicate_zero, update_user_core_nil env st a hexp]
      rw [count_fetches_append, count_fetches_gateEff]
      rfl
  | succ n ih =>
      intro st a hexp
      rw [List.replicate_succ, update_user_throttled env 1 _ st a hexp]
      have ihst := ih { st with threshold := st.now + (1 + 2) } (a + 1) hexp
      simp only [count_fetches_append, count_fetches_gateEff, ihst]
      simp [count_fetches, is_fetch]
      omega

/-- A snapshot that is absent, without item or not playing reconciles through
the clearing branch. -/
theorem reconcile_not_playing (env : Env) (player : Option PlayerData)
    (st : WorldState) (h : playing_snapshot player = false) :
    reconcile env player st = clear_status_branch env st := by
  cases player with
  | none => rfl
  | some p =>
      cases hi : p.item with
      | none => simp [reconcile, hi]
      | some tr =>
          simp [playing_snapshot, hi] at h
          simp [reconcile, hi, h]

/-- A playing snapshot reconciles through a set_user_status call on the
desired arguments of its track. -/
theorem reconcile_playing (env : Env) (p : PlayerData) (tr : TrackItem)
    (st : WorldState) (hi : p.item = some tr) (hp : p.is_playing = true) :
    reconcile env (some p) st
      = ((set_user_status env st (desired_args env st tr) true).2.1,
         (set_user_status env st (desired_args env st tr) true).2.2) := by
  simp [reconcile, hi, hp]

/-- Decomposition of a playing snapshot. -/
theorem playing_snapshot_eq_true (player : Option PlayerData)
    (h : playing_snapshot player = true) :
    ∃ p tr, player = some p ∧ p.item = some tr ∧ p.is_playing = true := by
  cases player with
  | none => simp [playing_snapshot] at h
  | some p =>
      cases hi : p.item with
      | none => simp [playing_snapshot, hi] at h
      | some tr =>
          refine ⟨p, tr, rfl, hi, ?_⟩
          simp [playing_snapshot, hi] at h
          exact h

/-! ## Claim C1 -/

/-- Claim C1, as stated, is false: the shared threshold is not monotone.  In
a state whose threshold is 1000 with current instant 0, a rate-limit signal
with retry-after 5 overwrites the threshold with 0 + 5 + 2 = 7, lowering
it. -/
theorem c1_counterexample :
    stC1.threshold = 1000 ∧
      (update_user env0 [PlayerOutcome.throttled 5] stC1 1).1.threshold = 7 ∧
      (update_user env0 [PlayerOutcome.throttled 5] stC1 1).1.threshold
        < stC1.threshold := by decide

/-- Claim C1, amended: a rate-limit signal with retry-after ra overwrites the
shared threshold with exactly now + ra + 2 (so immediately after the call
the threshold is at least now + ra + 2), and a status-write transport error
overwrites it with exactly now + 6; the assignment is unconditional, not a
compare-and-raise, so the threshold is not monotone across signals. -/
theorem c1_threshold_amended (env : Env) (st : WorldState) (ra : Int)
    (a : Nat) (args : UserProfileArgs) (b : Bool)
    (hexp : spotify_token_expired st.user.spotifyExpiresAt st.now = false) :
    (update_user env [PlayerOutcome.throttled ra] st a).1.threshold
        = st.now + (ra + 2) ∧
      st.now + (ra + 2) ≥ st.now + (ra + 2) ∧
      (set_user_status ({ env with
          slackBehavior := SlackBehavior.getRaises }) st args b).2.1.threshold
        = st.now + 6 := by
  refine ⟨?_, le_refl _, ?_⟩
  · unfold update_user
    rw [update_user_core_throttled env ra [] st a hexp]
    rw [update_user_core_nil env
      ({ st with threshold := st.now + (ra + 2) }) (a + 1) hexp]
  · simp [set_user_status]

/-- Witness for the amended claim C1 at the baseline state. -/
theorem c1_threshold_amended_witness :
    spotify_token_expired st0.user.spotifyExpiresAt st0.now = false ∧
      ((update_user env0 [PlayerOutcome.throttled 5] st0 1).1.threshold
          = st0.now + (5 + 2) ∧
        st0.now + (5 + 2) ≥ st0.now + (5 + 2) ∧
        (set_user_status ({ env0 with
            slackBehavior := SlackBehavior.getRaises }) st0 c9Args
            true).2.1.threshold = st0.now + 6) :=
  ⟨by decide, c1_threshold_amended env0 st0 5 1 c9Args true (by decide)⟩

/-! ## Claim C2 -/

/-- Claim C2, as stated, is false: no fixed bound caps the number of
retries.  For every candidate bound N, a trace of N + 1 consecutive
rate-limit responses makes the cycle fetch (hence retry) more than N
times — the recursion at worker.py:91 checks no maximum attempt. -/
theorem c2_counterexample :
    ¬ ∃ N : Nat, ∀ outcomes : List PlayerOutcome,
        count_fetches (update_user env0 outcomes st0 1).2 ≤ N := by
  rintro ⟨N, hN⟩
  have h1 := update_user_replicate_throttled env0 (N + 1) st0 1 (by decide)
  have h2 := hN (List.replicate (N + 1) (PlayerOutcome.throttled 1))
  omega

/-- Claim C2, amended: a rate-limit outcome with hint ra makes the cycle
overwrite the shared threshold with now + ra + 2 and retry the entire cycle
on the remaining trace with an incremented attempt counter, and the retry
re-checks the gate first (its first recorded effect is the gate wait); but
the number of retries is unbounded — it equals the number of consecutive
throttled outcomes, so termination relies on the provider eventually
answering something else. -/
theorem c2_throttle_retry_amended (env : Env) (rest : List PlayerOutcome)
    (ra : Int) (st : WorldState) (a : Nat)
    (hexp : spotify_token_expired st.user.spotifyExpiresAt st.now = false)
    (hra : 0 ≤ ra) :
    update_user env (PlayerOutcome.throttled ra :: rest) st a
        = ((update_user env rest
              { st with threshold := st.now + (ra + 2) } (a + 1)).1,
           gateEffOf st ++ [Effect.fetchPlayer]
             ++ (update_user env rest
                  { st with threshold := st.now + (ra + 2) } (a + 1)).2) ∧
      (update_user env rest
          { st with threshold := st.now + (ra + 2) } (a + 1)).2.head?
        = some Effect.gateWait := by
  refine ⟨update_user_throttled env ra rest st a hexp, ?_⟩
  have hlt : ({ st with threshold := st.now + (ra + 2) } : WorldState).now
      < ({ st with threshold := st.now + (ra + 2) } : WorldState).threshold := by
    show st.now < st.now + (ra + 2)
    omega
  have hg : gateEffOf ({ st with threshold := st.now + (ra + 2) })
      = [Effect.gateWait] := by
    unfold gateEffOf
    rw [if_pos hlt]
  unfold update_user
  rw [hg]
  rfl

/-- Witness for the amended claim C2 at the baseline state. -/
theorem c2_throttle_retry_amended_witness :
    spotify_token_expired st0.user.spotifyExpiresAt st0.now = false ∧
      (0 : Int) ≤ 5 ∧
      (update_user env0 [PlayerOutcome.throttled 5] st0 1
          = ((update_user env0 []
                { st0 with threshold := st0.now + (5 + 2) } (1 + 1)).1,
             gateEffOf st0 ++ [Effect.fetchPlayer]
               ++ (update_user env0 []
                    { st0 with threshold := st0.now + (5 + 2) } (1 + 1)).2) ∧
        (update_user env0 []
            { st0 with threshold := st0.now + (5 + 2) } (1 + 1)).2.head?
          = some Effect.gateWait) :=
  ⟨by decide, by decide,
    c2_throttle_retry_amended env0 [] 5 st0 1 (by decide) (by decide)⟩

/-! ## Claim C6 -/

/-- The gate-wait effect list holds no player fetch. -/
theorem fetch_not_mem_gateEff (st : WorldState) :
    Effect.fetchPlayer ∉ gateEffOf st := by
  unfold gateEffOf
  split <;> simp

/-- When the pre-fetch phase halts, the whole core cycle returns its result
whatever the player trace holds. -/
theorem update_user_core_halt (env : Env) (outcomes : List PlayerOutcome)
    (st st1 : WorldState) (effs : List Effect) (a : Nat)
    (h : pre_fetch_phase env st = PhaseResult.halt st1 effs) :
    update_user_core env outcomes st a = (st1, effs) := by
  cases outcomes with
  | nil => rw [update_user_core, h]
  | cons o rest => rw [update_user_core, h]

/-- Expired token with empty refresh token: the phase deletes the user. -/
theorem pre_fetch_phase_expired_no_rt (env : Env) (st : WorldState)
    (hexp : spotify_token_expired st.user.spotifyExpiresAt st.now = true)
    (hrt : st.user.spotifyRefreshToken = []) :
    pre_fetch_phase env st
      = PhaseResult.halt { st with userDeleted := true }
          [Effect.deleteUser] := by
  unfold pre_fetch_phase
  rw [if_pos ⟨hexp, hrt⟩]

/-- Expired token, refresh fails with a fatal description: the phase deletes
the user and halts. -/
theorem pre_fetch_phase_refresh_fatal (env : Env) (st : WorldState)
    (desc : Option (List Char))
    (hexp : spotify_token_expired st.user.spotifyExpiresAt st.now = true)
    (hrt : st.user.spotifyRefreshToken ≠ [])
    (href : env.refreshOutcome = RefreshOutcome.failure desc)
    (hf : fatal_refresh_desc desc = true) :
    pre_fetch_phase env st
      = PhaseResult.halt { st with userDeleted := true }
          [Effect.refreshCall, Effect.deleteUser] := by
  unfold pre_fetch_phase
  simp [hexp, hrt, update_spotify_tokens, href, hf]

/-- Expired token, refresh fails non-fatally: the phase halts with the state
unchanged. -/
theorem pre_fetch_phase_refresh_transient (env : Env) (st : WorldState)
    (desc : Option (List Char))
    (hexp : spotify_token_expired st.user.spotifyExpiresAt st.now = true)
    (hrt : st.user.spotifyRefreshToken ≠ [])
    (href : env.refreshOutcome = RefreshOutcome.failure desc)
    (hf : fatal_refresh_desc desc = false) :
    pre_fetch_phase env st
      = PhaseResult.halt st [Effect.refreshCall] := by
  unfold pre_fetch_phase
  simp [hexp, hrt, update_spotify_tokens, href, hf]

/-- Claim C6: with an expired token, the user record is deleted exactly in
the irrecoverable cases — empty refresh token (with no playback fetch), or a
refresh failure whose description is fatal (token revoked or account gone);
any other refresh failure leaves the whole state unchanged, fetches nothing
and deletes nobody. -/
theorem c6_deletion_policy (env : Env) (outcomes : List PlayerOutcome)
    (st : WorldState) (a : Nat)
    (hexp : spotify_token_expired st.user.spotifyExpiresAt st.now = true) :
    (st.user.spotifyRefreshToken = [] →
        (update_user env outcomes st a).1.userDeleted = true ∧
          Effect.fetchPlayer ∉ (update_user env outcomes st a).2) ∧
      (∀ desc, st.user.spotifyRefreshToken ≠ [] →
        env.refreshOutcome = RefreshOutcome.failure desc →
        ((fatal_refresh_desc desc = true →
            (update_user env outcomes st a).1.userDeleted = true) ∧
          (fatal_refresh_desc desc = false →
            (update_user env outcomes st a).1 = st ∧
              Effect.fetchPlayer ∉ (update_user env outcomes st a).2))) := by
  refine ⟨?_, ?_⟩
  · intro hrt
    have hph := pre_fetch_phase_expired_no_rt env st hexp hrt
    have hcore := update_user_core_halt env outcomes st _ _ a hph
    unfold update_user
    rw [hcore]
    refine ⟨rfl, ?_⟩
    intro hmem
    rcases List.mem_append.1 hmem with h1 | h2
    · exact fetch_not_mem_gateEff st h1
    · simp at h2
  · intro desc hrt href
    constructor
    · intro hf
      have hph := pre_fetch_phase_refresh_fatal env st desc hexp hrt href hf
      have hcore := update_user_core_halt env outcomes st _ _ a hph
      unfold update_user
      rw [hcore]
    · intro hf
      have hph :=
        pre_fetch_phase_refresh_transient env st desc hexp hrt href hf
      have hcore := update_user_core_halt env outcomes st _ _ a hph
      unfold update_user
      rw [hcore]
      refine ⟨rfl, ?_⟩
      intro hmem
      rcases List.mem_append.1 hmem with h1 | h2
      · exact fetch_not_mem_gateEff st h1
      · simp at h2

/-- Witness for claim C6 at a state whose token expired long ago with an
empty refresh token. -/
theorem c6_deletion_policy_witness :
    spotify_token_expired stC6.user.spotifyExpiresAt stC6.now = true ∧
      ((stC6.user.spotifyRefreshToken = [] →
          (update_user env0 [PlayerOutcome.ok none] stC6 1).1.userDeleted
              = true ∧
            Effect.fetchPlayer
              ∉ (update_user env0 [PlayerOutcome.ok none] stC6 1).2) ∧
        (∀ desc, stC6.user.spotifyRefreshToken ≠ [] →
          env0.refreshOutcome = RefreshOutcome.failure desc →
          ((fatal_refresh_desc desc = true →
              (update_user env0 [PlayerOutcome.ok none] stC6 1).1.userDeleted
                = true) ∧
            (fatal_refresh_desc desc = false →
              (update_user env0 [PlayerOutcome.ok none] stC6 1).1 = stC6 ∧
                Effect.fetchPlayer
                  ∉ (update_user env0 [PlayerOutcome.ok none] stC6 1).2)))) :=
  ⟨by decide, c6_deletion_policy env0 [PlayerOutcome.ok none] stC6 1 (by decide)⟩


/-! ## Claim C9 -/

/-- Claim C9 is right about the intent but wrong about the code: the skip
path is unreachable.  For every environment in which get_status returns
(whatever answer set_status would give), set_user_status aborts with the
uncaught AttributeError of worker.py:148 before the comparison, returning
no success, issuing no write and mutating nothing; in particular this
happens in the exact skip scenario, where the platform already reports the
desired text. -/
theorem c9_skip_faults :
    (∀ (env : Env) (ok : Bool) (err : Option (List Char)) (st : WorldState)
        (args : UserProfileArgs) (b : Bool),
        set_user_status
            ({ env with slackBehavior := SlackBehavior.respond ok err })
            st args b
          = (false, st, [Effect.getStatusCall, Effect.uncaughtAttrError])) ∧
      stC9.platformStatus = c9Args.status_text ∧
      set_user_status env0 stC9 c9Args true
        = (false, stC9, [Effect.getStatusCall, Effect.uncaughtAttrError]) ∧
      count_writes (set_user_status env0 stC9 c9Args true).2.2 = 0 := by
  refine ⟨?_, by decide, by decide, by decide⟩
  intro env ok err st args b
  rfl

/-! ## Claim C7 -/

/-- Claim C7 is right about the intent but wrong about the code: the
diff-and-skip mechanism is unreachable.  Reconciling any playing snapshot
reaches the status-write step, which aborts with the uncaught
AttributeError of worker.py:148 before the status diff, so reconciliation
crashes rather than skipping; this happens even in the exact skip scenario
where the platform already reports the identical Midnight text.  Only the
path with nothing playing and statusSetLastTime already false, which
performs no platform call at all, behaves as the claim describes. -/
theorem c7_reconcile_faults :
    (∀ (env : Env) (ok : Bool) (err : Option (List Char)) (tr : TrackItem)
        (st : WorldState),
        reconcile ({ env with slackBehavior := SlackBehavior.respond ok err })
            (some ({ is_playing := true, item := some tr })) st
          = (st, [Effect.getStatusCall, Effect.uncaughtAttrError])) ∧
      stMidnight.platformStatus = calc_status_text midnightTrack ∧
      reconcile envC7 playerC7 stMidnight
        = (stMidnight, [Effect.getStatusCall, Effect.uncaughtAttrError]) ∧
      (∀ env : Env, reconcile env none st0 = (st0, [])) := by
  refine ⟨?_, by decide, by decide, ?_⟩
  · intro env ok err tr st
    rfl
  · intro env
    rfl
